import Mathlib

/-!
Shallow embedding of the error classifier library
(src/types.ts and src/error-classifier.ts).

Modelling conventions:

* JavaScript strings are Lean `String`s; `String.prototype.includes` is
  `jsIncludes` (substring test) and `toLowerCase` is `jsToLower`
  (character-wise ASCII lowering, which agrees with JavaScript on the
  ASCII inputs that appear in all claims).
* `ErrorCode` in types.ts is a string enum: at runtime each member IS its
  string value (for example `ErrorCode.TIMEOUT` is the string "TIMEOUT").
  Codes therefore flow through the program as strings; the Lean inductive
  `ErrorCode` enumerates the 20 members and `ErrorCode.strVal` gives the
  runtime string value.
* In `classify`, the dispatch is `error instanceof Error`, then the
  typeof-string test, then an else branch. Because the string
  enum members are runtime strings, an `ErrorCode` argument satisfies
  the typeof-string test and is routed through
  `determineErrorCodeFromMessage`; the else branch (which would use the
  code directly and consult `customMessage`) is unreachable for the three
  declared input shapes. The embedding reflects this runtime dispatch.
* The classification table is a JavaScript object keyed by the code
  strings; it is embedded as an association list over `String` with the
  lookup-or-default (`|| {...}`) of the source kept explicit.
* Fallible or optional JavaScript constructs (`config.retryableErrors?.
  includes(x) ?? false`) are embedded with `Option`.
-/

/-- The 8 coarse error classifications of types.ts (`ErrorClassification`). -/
inductive ErrorClassification where
  | timeout
  | rate_limit
  | authentication
  | model
  | quality
  | network
  | system
  | unknown
deriving DecidableEq

/-- The 20-member string enum `ErrorCode` of types.ts. -/
inductive ErrorCode where
  | TIMEOUT
  | CONNECTION_ERROR
  | DNS_ERROR
  | AUTHENTICATION_ERROR
  | INVALID_API_KEY
  | PERMISSION_DENIED
  | RATE_LIMIT
  | QUOTA_EXCEEDED
  | MODEL_NOT_FOUND
  | MODEL_OVERLOADED
  | CONTEXT_LENGTH_EXCEEDED
  | INVALID_RESPONSE
  | PARSE_ERROR
  | EMPTY_RESPONSE
  | QUALITY_THRESHOLD_NOT_MET
  | LATENCY_TOO_HIGH
  | INTERNAL_ERROR
  | SERVICE_UNAVAILABLE
  | UNKNOWN_ERROR
  | CUSTOM_ERROR
deriving DecidableEq

/-- The runtime string value of each `ErrorCode` member (string enum). -/
def ErrorCode.strVal : ErrorCode → String
  | .TIMEOUT => "TIMEOUT"
  | .CONNECTION_ERROR => "CONNECTION_ERROR"
  | .DNS_ERROR => "DNS_ERROR"
  | .AUTHENTICATION_ERROR => "AUTHENTICATION_ERROR"
  | .INVALID_API_KEY => "INVALID_API_KEY"
  | .PERMISSION_DENIED => "PERMISSION_DENIED"
  | .RATE_LIMIT => "RATE_LIMIT"
  | .QUOTA_EXCEEDED => "QUOTA_EXCEEDED"
  | .MODEL_NOT_FOUND => "MODEL_NOT_FOUND"
  | .MODEL_OVERLOADED => "MODEL_OVERLOADED"
  | .CONTEXT_LENGTH_EXCEEDED => "CONTEXT_LENGTH_EXCEEDED"
  | .INVALID_RESPONSE => "INVALID_RESPONSE"
  | .PARSE_ERROR => "PARSE_ERROR"
  | .EMPTY_RESPONSE => "EMPTY_RESPONSE"
  | .QUALITY_THRESHOLD_NOT_MET => "QUALITY_THRESHOLD_NOT_MET"
  | .LATENCY_TOO_HIGH => "LATENCY_TOO_HIGH"
  | .INTERNAL_ERROR => "INTERNAL_ERROR"
  | .SERVICE_UNAVAILABLE => "SERVICE_UNAVAILABLE"
  | .UNKNOWN_ERROR => "UNKNOWN_ERROR"
  | .CUSTOM_ERROR => "CUSTOM_ERROR"

/-- Character-wise check that `hay` starts with `needle`. -/
def hasPrefixChars : List Char → List Char → Bool
  | _, [] => true
  | [], _ :: _ => false
  | c :: cs, d :: ds => c == d && hasPrefixChars cs ds

/-- Character-wise check that `needle` occurs as a contiguous substring
of `hay`. -/
def hasSubstrChars : List Char → List Char → Bool
  | [], needle => needle.isEmpty
  | c :: cs, needle => hasPrefixChars (c :: cs) needle || hasSubstrChars cs needle

/-- JavaScript `hay.includes(needle)`: substring containment. -/
def jsIncludes (hay needle : String) : Bool :=
  hasSubstrChars hay.data needle.data

/-- JavaScript `s.toLowerCase()`, restricted to its ASCII behaviour. -/
def jsToLower (s : String) : String :=
  ⟨s.data.map Char.toLower⟩

/-- One row of `ERROR_CLASSIFICATIONS` in error-classifier.ts. -/
structure ClassificationEntry where
  classification : ErrorClassification
  retryable : Bool
  shouldFallback : Bool
deriving DecidableEq

/-- The slice of `RetryConfig` (types.ts) that the classifier reads: the
two optional override lists. `fallbackOnErrors` has type `ErrorCode[]`
and `retryableErrors` has type `string[]`; both hold strings at runtime.
The numeric retry and backoff fields of `RetryConfig` never reach the
classifier and are not modelled. -/
structure RetryConfig where
  fallbackOnErrors : Option (List String)
  retryableErrors : Option (List String)

/-- The `ClassifiedError` result shape of types.ts, with `code` carried
as its runtime string value. -/
structure ClassifiedError where
  code : String
  classification : ErrorClassification
  retryable : Bool
  shouldFallback : Bool
  message : String
deriving DecidableEq

/-- The static table `ErrorClassifier.ERROR_CLASSIFICATIONS`, keyed by
the runtime string value of each code, rows in source order. -/
def ERROR_CLASSIFICATIONS : List (String × ClassificationEntry) :=
  [ ("TIMEOUT", ⟨.timeout, true, true⟩)
  , ("CONNECTION_ERROR", ⟨.network, true, true⟩)
  , ("DNS_ERROR", ⟨.network, true, true⟩)
  , ("AUTHENTICATION_ERROR", ⟨.authentication, false, false⟩)
  , ("INVALID_API_KEY", ⟨.authentication, false, true⟩)
  , ("PERMISSION_DENIED", ⟨.authentication, false, false⟩)
  , ("RATE_LIMIT", ⟨.rate_limit, true, true⟩)
  , ("QUOTA_EXCEEDED", ⟨.rate_limit, false, true⟩)
  , ("MODEL_NOT_FOUND", ⟨.model, false, true⟩)
  , ("MODEL_OVERLOADED", ⟨.model, true, true⟩)
  , ("CONTEXT_LENGTH_EXCEEDED", ⟨.model, false, true⟩)
  , ("INVALID_RESPONSE", ⟨.quality, true, true⟩)
  , ("PARSE_ERROR", ⟨.quality, true, true⟩)
  , ("EMPTY_RESPONSE", ⟨.quality, true, true⟩)
  , ("QUALITY_THRESHOLD_NOT_MET", ⟨.quality, false, true⟩)
  , ("LATENCY_TOO_HIGH", ⟨.quality, false, true⟩)
  , ("INTERNAL_ERROR", ⟨.system, true, false⟩)
  , ("SERVICE_UNAVAILABLE", ⟨.system, true, true⟩)
  , ("UNKNOWN_ERROR", ⟨.unknown, false, false⟩)
  , ("CUSTOM_ERROR", ⟨.unknown, false, false⟩)
  ]

/-- Object-key lookup `ERROR_CLASSIFICATIONS[errorCode]`. -/
def lookupClassification (code : String) : Option ClassificationEntry :=
  ERROR_CLASSIFICATIONS.lookup code

/-- The inline default object of classify, lines 168-172: classification
unknown, retryable false, shouldFallback false. -/
def defaultClassification : ClassificationEntry :=
  ⟨.unknown, false, false⟩

/-- `ERROR_CLASSIFICATIONS[errorCode] || {unknown, false, false}`. -/
def baseClassification (code : String) : ClassificationEntry :=
  (lookupClassification code).getD defaultClassification

/-- `arr?.includes(x) ?? false` for an optional string array. -/
def optIncludes (o : Option (List String)) (x : String) : Bool :=
  match o with
  | some l => l.contains x
  | none => false

/-- `ErrorClassifier.extractErrorCode` (error-classifier.ts lines
210-283), on the `name` and `message` fields of the Error object.
Returns the runtime string value of the chosen code. The occurrences of
"ECONNREFUSED" and "ENOTFOUND" are kept in upper case exactly as in the
source, where they are tested against the lowercased message. -/
def extractErrorCode (errName errMessage : String) : String :=
  let message := jsToLower errMessage
  let name := jsToLower errName
  if jsIncludes message "timeout" || jsIncludes name "timeout" then
    "TIMEOUT"
  else if jsIncludes message "rate limit" || jsIncludes message "rate_limit" ||
      jsIncludes message "too many requests" then
    "RATE_LIMIT"
  else if jsIncludes message "authentication" || jsIncludes message "unauthorized" ||
      jsIncludes message "invalid api key" || jsIncludes message "api key" then
    "INVALID_API_KEY"
  else if jsIncludes message "quota" || jsIncludes message "exceeded" ||
      jsIncludes message "insufficient credits" then
    "QUOTA_EXCEEDED"
  else if jsIncludes message "overloaded" || jsIncludes message "model overloaded" then
    "MODEL_OVERLOADED"
  else if jsIncludes message "context length" || jsIncludes message "max tokens" ||
      jsIncludes message "token limit" then
    "CONTEXT_LENGTH_EXCEEDED"
  else if jsIncludes message "connection" || jsIncludes message "network" ||
      jsIncludes message "ECONNREFUSED" || jsIncludes message "ENOTFOUND" then
    "CONNECTION_ERROR"
  else if jsIncludes message "503" || jsIncludes message "service unavailable" ||
      jsIncludes message "unavailable" then
    "SERVICE_UNAVAILABLE"
  else if jsIncludes message "empty" || jsIncludes message "no response" then
    "EMPTY_RESPONSE"
  else if jsIncludes message "invalid response" || jsIncludes message "parse" then
    "INVALID_RESPONSE"
  else if jsIncludes message "permission" || jsIncludes message "forbidden" ||
      jsIncludes message "403" then
    "PERMISSION_DENIED"
  else if jsIncludes message "model not found" || jsIncludes message "404" then
    "MODEL_NOT_FOUND"
  else
    "UNKNOWN_ERROR"

/-- `ErrorClassifier.determineErrorCodeFromMessage` (error-classifier.ts
lines 288-307). -/
def determineErrorCodeFromMessage (message : String) : String :=
  let lowerMessage := jsToLower message
  if jsIncludes lowerMessage "timeout" then "TIMEOUT"
  else if jsIncludes lowerMessage "rate limit" then "RATE_LIMIT"
  else if jsIncludes lowerMessage "authentication" || jsIncludes lowerMessage "api key" then
    "INVALID_API_KEY"
  else if jsIncludes lowerMessage "quota" then "QUOTA_EXCEEDED"
  else if jsIncludes lowerMessage "overloaded" then "MODEL_OVERLOADED"
  else if jsIncludes lowerMessage "context length" then "CONTEXT_LENGTH_EXCEEDED"
  else if jsIncludes lowerMessage "connection" then "CONNECTION_ERROR"
  else if jsIncludes lowerMessage "unavailable" then "SERVICE_UNAVAILABLE"
  else if jsIncludes lowerMessage "empty" then "EMPTY_RESPONSE"
  else if jsIncludes lowerMessage "invalid response" then "INVALID_RESPONSE"
  else if jsIncludes lowerMessage "permission" then "PERMISSION_DENIED"
  else if jsIncludes lowerMessage "model not found" then "MODEL_NOT_FOUND"
  else "CUSTOM_ERROR"

/-- The three declared input shapes of `classify`: a structured Error
object (name and message), an `ErrorCode` member, or a raw string. -/
inductive ErrInput where
  | errObj (name message : String)
  | code (c : ErrorCode)
  | str (s : String)

/-- `ErrorClassifier.classify` (error-classifier.ts lines 151-189).
Dispatch follows the runtime tests of the source: an Error object takes
the `instanceof Error` branch; both a raw string and an `ErrorCode`
member (a string at runtime, since `ErrorCode` is a string enum) take
the typeof-string branch, so an `ErrorCode` input is
classified by running message inference on its string value. The
trailing else branch of the source (`errorCode = error; errorMessage =
customMessage || error`) is unreachable for these input shapes and
`customMessage` is therefore never consulted. -/
def classify (cfg : RetryConfig) (error : ErrInput) (customMessage : Option String) :
    ClassifiedError :=
  let codeAndMessage : String × String :=
    match error with
    | .errObj name msg => (extractErrorCode name msg, msg)
    | .code c => (determineErrorCodeFromMessage c.strVal, c.strVal)
    | .str s => (determineErrorCodeFromMessage s, s)
  let errorCode := codeAndMessage.1
  let errorMessage := codeAndMessage.2
  let classification := baseClassification errorCode
  let shouldFallback :=
    classification.shouldFallback || optIncludes cfg.fallbackOnErrors errorCode
  let retryable :=
    classification.retryable || optIncludes cfg.retryableErrors errorCode
  { code := errorCode
  , classification := classification.classification
  , retryable := retryable
  , shouldFallback := shouldFallback
  , message := errorMessage }

/-- `ErrorClassifier.isRetryable`. -/
def isRetryable (cfg : RetryConfig) (error : ErrInput) : Bool :=
  (classify cfg error none).retryable

/-- `ErrorClassifier.shouldFallback`. -/
def shouldFallbackFn (cfg : RetryConfig) (error : ErrInput) : Bool :=
  (classify cfg error none).shouldFallback

/-- A config whose two override lists are present and empty. -/
def emptyConfig : RetryConfig :=
  ⟨some [], some []⟩

/-- The error code string that classify derives for each input shape,
read off the dispatch of classify. -/
def derivedCode : ErrInput → String
  | .errObj name msg => extractErrorCode name msg
  | .code c => determineErrorCodeFromMessage c.strVal
  | .str s => s |> determineErrorCodeFromMessage

/-- The message string that classify reports for each input shape. -/
def derivedMessage : ErrInput → String
  | .errObj _ msg => msg
  | .code c => c.strVal
  | .str s => s

lemma classify_code (cfg : RetryConfig) (e : ErrInput) (m : Option String) :
    (classify cfg e m).code = derivedCode e := by
  cases e <;> rfl

lemma classify_classification (cfg : RetryConfig) (e : ErrInput) (m : Option String) :
    (classify cfg e m).classification = (baseClassification (derivedCode e)).classification := by
  cases e <;> rfl

lemma classify_message (cfg : RetryConfig) (e : ErrInput) (m : Option String) :
    (classify cfg e m).message = derivedMessage e := by
  cases e <;> rfl

lemma classify_retryable (cfg : RetryConfig) (e : ErrInput) (m : Option String) :
    (classify cfg e m).retryable =
      ((baseClassification (derivedCode e)).retryable ||
        optIncludes cfg.retryableErrors (derivedCode e)) := by
  cases e <;> rfl

lemma classify_shouldFallback (cfg : RetryConfig) (e : ErrInput) (m : Option String) :
    (classify cfg e m).shouldFallback =
      ((baseClassification (derivedCode e)).shouldFallback ||
        optIncludes cfg.fallbackOnErrors (derivedCode e)) := by
  cases e <;> rfl

lemma bool_le_or_left (a b : Bool) : a ≤ (a || b) := by
  cases a <;> cases b <;> decide

lemma hasPrefixChars_nil (hay : List Char) : hasPrefixChars hay [] = true := by
  cases hay <;> rfl

lemma hasPrefixChars_map_toLower {needle hay : List Char}
    (hn : needle.map Char.toLower = needle)
    (h : hasPrefixChars hay needle = true) :
    hasPrefixChars (hay.map Char.toLower) needle = true := by
  induction hay generalizing needle with
  | nil =>
    cases needle with
    | nil => rfl
    | cons d ds => exact absurd h (by simp [hasPrefixChars])
  | cons c cs ih =>
    cases needle with
    | nil => exact hasPrefixChars_nil _
    | cons d ds =>
      simp only [hasPrefixChars, Bool.and_eq_true, beq_iff_eq] at h
      obtain ⟨hcd, hrest⟩ := h
      simp only [List.map_cons, List.cons.injEq] at hn
      obtain ⟨hd, hds⟩ := hn
      simp only [List.map_cons, hasPrefixChars, Bool.and_eq_true, beq_iff_eq]
      exact ⟨by rw [hcd, hd], ih hds hrest⟩

lemma hasSubstrChars_map_toLower {needle hay : List Char}
    (hn : needle.map Char.toLower = needle)
    (h : hasSubstrChars hay needle = true) :
    hasSubstrChars (hay.map Char.toLower) needle = true := by
  induction hay with
  | nil => exact h
  | cons c cs ih =>
    simp only [hasSubstrChars, Bool.or_eq_true] at h
    rcases h with h | h
    · simp only [List.map_cons, hasSubstrChars, Bool.or_eq_true]
      exact Or.inl (hasPrefixChars_map_toLower hn h)
    · simp only [List.map_cons, hasSubstrChars, Bool.or_eq_true]
      exact Or.inr (ih h)

lemma jsIncludes_jsToLower {s needle : String}
    (hn : jsToLower needle = needle)
    (h : jsIncludes s needle = true) :
    jsIncludes (jsToLower s) needle = true := by
  have hd : needle.data.map Char.toLower = needle.data := congrArg String.data hn
  exact hasSubstrChars_map_toLower hd h

/-- Claim C1: the claim says classify on every ErrorCode value returns its own
code with the classification of the static table. Because ErrorCode is a
string enum, a code value takes the string branch of classify and is run
through message inference on its name; for DNS_ERROR the inference
matches no rule, so classify returns code CUSTOM_ERROR with
classification unknown instead of code DNS_ERROR with classification
network. This theorem evaluates classify at that failing input. -/
theorem classify_errorcode_input_bug :
    (classify emptyConfig (.code .DNS_ERROR) none).code = "CUSTOM_ERROR" ∧
    (classify emptyConfig (.code .DNS_ERROR) none).code ≠ ErrorCode.DNS_ERROR.strVal ∧
    (classify emptyConfig (.code .DNS_ERROR) none).classification ≠
      ErrorClassification.network := by
  decide

/-- Claim C2: the claim says classify on AUTHENTICATION_ERROR with empty
override lists yields retryable false and shouldFallback false. The
string-enum value AUTHENTICATION_ERROR travels the string branch, the
substring authentication matches, and the derived code is
INVALID_API_KEY whose table row has shouldFallback true. This theorem
evaluates classify at that failing input. -/
theorem classify_auth_error_empty_config_bug :
    classify emptyConfig (.code .AUTHENTICATION_ERROR) none =
      { code := "INVALID_API_KEY"
      , classification := .authentication
      , retryable := false
      , shouldFallback := true
      , message := "AUTHENTICATION_ERROR" } := by
  decide

/-- Claim C3: the claim says re-classifying by the derived code leaves the
classification, retryable and shouldFallback fields unchanged. For the
string input "rate limit" the first call derives RATE_LIMIT with
classification rate_limit and retryable true, but re-classifying the
code RATE_LIMIT runs message inference on the string RATE_LIMIT, which
matches no rule (the string-input rule list checks only the spaced form
of the fragment), giving CUSTOM_ERROR with classification unknown and
retryable false. This theorem evaluates both calls. -/
theorem classify_reclassify_not_idempotent :
    (classify emptyConfig (.str "rate limit") none).code = ErrorCode.RATE_LIMIT.strVal ∧
    (classify emptyConfig (.str "rate limit") none).classification =
      ErrorClassification.rate_limit ∧
    (classify emptyConfig (.str "rate limit") none).retryable = true ∧
    (classify emptyConfig (.code .RATE_LIMIT) none).classification =
      ErrorClassification.unknown ∧
    (classify emptyConfig (.code .RATE_LIMIT) none).retryable = false := by
  decide

/-- Claim C4: the claim says a structured error whose message is exactly
ECONNREFUSED is classified as CONNECTION_ERROR with classification
network. The source lowercases the message and then tests it for the
upper-case literal ECONNREFUSED, a test that can never succeed, and no
other rule matches, so classify returns UNKNOWN_ERROR with
classification unknown. This theorem evaluates classify at that failing
input. -/
theorem classify_econnrefused_bug :
    (classify emptyConfig (.errObj "Error" "ECONNREFUSED") none).code = "UNKNOWN_ERROR" ∧
    (classify emptyConfig (.errObj "Error" "ECONNREFUSED") none).classification =
      ErrorClassification.unknown := by
  decide

/-- Claim C5: overrides are strictly additive. For every input, config and
customMessage, the retryable and shouldFallback fields under the config
are at least the values obtained with empty override lists (the static
table values for the derived code), and the config never changes the
classification or the message. -/
theorem override_monotone (e : ErrInput) (cfg : RetryConfig) (m : Option String) :
    (classify emptyConfig e m).retryable ≤ (classify cfg e m).retryable ∧
    (classify emptyConfig e m).shouldFallback ≤ (classify cfg e m).shouldFallback ∧
    (classify cfg e m).classification = (classify emptyConfig e m).classification ∧
    (classify cfg e m).message = (classify emptyConfig e m).message := by
  simp only [classify_retryable, classify_shouldFallback, classify_classification,
    classify_message]
  refine ⟨?_, ?_, by trivial, by trivial⟩
  · have h : optIncludes emptyConfig.retryableErrors (derivedCode e) = false := rfl
    rw [h, Bool.or_false]
    exact bool_le_or_left _ _
  · have h : optIncludes emptyConfig.fallbackOnErrors (derivedCode e) = false := rfl
    rw [h, Bool.or_false]
    exact bool_le_or_left _ _

/-- Claim C6: first-match precedence of the inference cascade. Any message
containing both the substring timeout and the substring rate limit is
mapped to TIMEOUT by both inference entry points, since the timeout rule
is tested first. -/
theorem inference_first_match_timeout (name msg : String) (cfg : RetryConfig)
    (m : Option String)
    (h1 : jsIncludes msg "timeout" = true)
    (h2 : jsIncludes msg "rate limit" = true) :
    (classify cfg (.str msg) m).code = "TIMEOUT" ∧
    (classify cfg (.errObj name msg) m).code = "TIMEOUT" := by
  have hlow : jsIncludes (jsToLower msg) "timeout" = true :=
    jsIncludes_jsToLower (by decide) h1
  constructor
  · show determineErrorCodeFromMessage msg = "TIMEOUT"
    simp [determineErrorCodeFromMessage, hlow]
  · show extractErrorCode name msg = "TIMEOUT"
    simp [extractErrorCode, hlow]

/-- Witness for C6 at a concrete message containing both fragments. -/
theorem inference_first_match_timeout_witness :
    jsIncludes "connection timeout after rate limit" "timeout" = true ∧
    jsIncludes "connection timeout after rate limit" "rate limit" = true ∧
    (classify emptyConfig (.str "connection timeout after rate limit") none).code =
      "TIMEOUT" ∧
    (classify emptyConfig
        (.errObj "Error" "connection timeout after rate limit") none).code = "TIMEOUT" := by
  have h1 : jsIncludes "connection timeout after rate limit" "timeout" = true := by decide
  have h2 : jsIncludes "connection timeout after rate limit" "rate limit" = true := by decide
  have h := inference_first_match_timeout "Error" "connection timeout after rate limit"
    emptyConfig none h1 h2
  exact ⟨h1, h2, h.1, h.2⟩

/-- Claim C7: default divergence of the two inference entry points. The raw
string input with no matching rule yields CUSTOM_ERROR, while a
structured error object with the same unmatched message yields
UNKNOWN_ERROR. -/
theorem default_code_divergence :
    (classify emptyConfig (.str "some completely novel phrase") none).code =
      "CUSTOM_ERROR" ∧
    (classify emptyConfig (.errObj "Error" "some completely novel phrase") none).code =
      "UNKNOWN_ERROR" := by
  decide

/-- Claim C8: classify is total. The taxonomy table has an entry for every
ErrorCode member; when a looked-up code has no table entry the base
classification degrades to classification unknown with retryable false
and shouldFallback false before overrides; and classify always returns a
ClassifiedError value (the embedding is a total function, mirroring the
non-throwing source). -/
theorem classify_total_table_default :
    (∀ c : ErrorCode, (lookupClassification c.strVal).isSome = true) ∧
    (∀ code : String, lookupClassification code = none →
      baseClassification code = ⟨.unknown, false, false⟩) ∧
    (∀ (cfg : RetryConfig) (e : ErrInput) (m : Option String),
      ∃ r : ClassifiedError, classify cfg e m = r) := by
  refine ⟨?_, ?_, fun cfg e m => ⟨_, rfl⟩⟩
  · intro c
    cases c <;> rfl
  · intro code h
    unfold baseClassification
    rw [h]
    rfl

/-- Witness for C8 at a concrete code string absent from the table. -/
theorem classify_total_table_default_witness :
    lookupClassification "SOME_NOVEL_CODE" = none ∧
    baseClassification "SOME_NOVEL_CODE" = ⟨.unknown, false, false⟩ :=
  ⟨by decide, classify_total_table_default.2.1 "SOME_NOVEL_CODE" (by decide)⟩

/-- Claim C9: config noninterference. For every input and customMessage and
every pair of configs, the two runs of classify agree on the code,
classification and message fields. -/
theorem config_noninterference (e : ErrInput) (m : Option String)
    (cfg1 cfg2 : RetryConfig) :
    (classify cfg1 e m).code = (classify cfg2 e m).code ∧
    (classify cfg1 e m).classification = (classify cfg2 e m).classification ∧
    (classify cfg1 e m).message = (classify cfg2 e m).message := by
  cases e <;> exact ⟨rfl, rfl, rfl⟩

/-- Claim C10: for every raw string input and every value of the optional
customMessage argument, the returned message is the input string itself
and the customMessage argument has no effect on the result. -/
theorem string_input_message_preserved (cfg : RetryConfig) (s : String)
    (m : Option String) :
    (classify cfg (.str s) m).message = s ∧
    classify cfg (.str s) m = classify cfg (.str s) none :=
  ⟨rfl, rfl⟩
